import Mathlib

/-!
Verification of the Cyberion kernel driver event-handoff core
(src/Driver.c, src/Public.h).

The driver keeps one global slot `g_PendingIrp : PIRP` protected by a spin
lock.  `ProcessNotifyCallback` is the producer (publish), the
`IOCTL_CYBERION_GET_PROCESS_INFO` branch of `CyberionDeviceControl` is the
consumer registration (registerWaiter), the `IOCTL_CYBERION_SEND_RESPONSE`
branch is the decision acknowledgement, and `CyberionUnload` cancels any
outstanding wait.

The embedding models memory byte-wise: a `WCHAR` (UTF-16 code unit) is two
consecutive bytes, `UNICODE_STRING.Length` is a byte count as in the DDK,
and `RtlCopyMemory` copies a byte count.  IRP completion is modelled as an
emitted `Completion` record carrying the status, the `Information` field
and the contents of the system buffer at completion time.
-/

namespace Cyberion

/-- NTSTATUS value STATUS_SUCCESS. -/
def STATUS_SUCCESS : Nat := 0x00000000

/-- NTSTATUS value STATUS_PENDING. -/
def STATUS_PENDING : Nat := 0x00000103

/-- NTSTATUS value STATUS_DEVICE_BUSY. -/
def STATUS_DEVICE_BUSY : Nat := 0x80000011

/-- NTSTATUS value STATUS_INVALID_DEVICE_REQUEST. -/
def STATUS_INVALID_DEVICE_REQUEST : Nat := 0xC0000010

/-- NTSTATUS value STATUS_CANCELLED, the status produced when a pending IRP
is cancelled. -/
def STATUS_CANCELLED : Nat := 0xC0000120

/-- Public.h: `#define MAX_PATH_SIZE 260`. -/
def MAX_PATH_SIZE : Nat := 260

/-- Size of a WCHAR (UTF-16 code unit) in bytes. -/
def sizeofWCHAR : Nat := 2

/-- Size of a HANDLE in bytes (x64). -/
def sizeofHANDLE : Nat := 8

/-- Byte size of PROCESS_CREATION_INFO: two HANDLE fields and a
WCHAR[MAX_PATH_SIZE] array. -/
def sizeofPROCESS_CREATION_INFO : Nat :=
  sizeofHANDLE + sizeofHANDLE + MAX_PATH_SIZE * sizeofWCHAR

/-- Public.h `PROCESS_CREATION_INFO`: the buffer of a GET_PROCESS_INFO IRP.
`ImageFileName` is the WCHAR[260] field viewed as its 520 bytes, one list
entry per byte. -/
structure PROCESS_CREATION_INFO where
  ProcessId : Nat
  ParentProcessId : Nat
  ImageFileName : List Nat
deriving Repr, DecidableEq

/-- DDK `UNICODE_STRING`: `Length` counts bytes, `Buffer` is the pointed-to
memory, one list entry per byte. -/
structure UNICODE_STRING where
  Length : Nat
  Buffer : List Nat
deriving Repr, DecidableEq

/-- DDK `PS_CREATE_NOTIFY_INFO` restricted to the fields the driver reads:
the parent process id and the (possibly NULL) image file name. -/
structure PS_CREATE_NOTIFY_INFO where
  ParentProcessId : Nat
  ImageFileName : Option UNICODE_STRING
deriving Repr, DecidableEq

/-- Public.h `USER_RESPONSE`.  `Response` is the `USER_RESPONSE_TYPE` enum
carried as a C integer, so out-of-range values are representable. -/
structure USER_RESPONSE where
  ProcessId : Nat
  Response : Nat
deriving Repr, DecidableEq

/-- Enum value `UserResponseAllow`. -/
def UserResponseAllow : Nat := 0

/-- Enum value `UserResponseBlock`. -/
def UserResponseBlock : Nat := 1

/-- An IRP as the driver sees it: an identity (the completion token) and the
contents of its METHOD_BUFFERED system buffer. -/
structure Irp where
  id : Nat
  buffer : PROCESS_CREATION_INFO
deriving Repr, DecidableEq

/-- One call to `IoCompleteRequest`: which IRP was completed, with which
status and `Information`, and the system-buffer contents at that moment
(`none` for IRPs whose buffer is not a PROCESS_CREATION_INFO). -/
structure Completion where
  irpId : Nat
  status : Nat
  information : Nat
  data : Option PROCESS_CREATION_INFO
deriving Repr, DecidableEq

/-- The driver's global mutable state: `g_PendingIrp`, NULL or one stored
IRP.  The spin lock `g_IrpQueueLock` serialises every access, so the
sequential semantics below is the lock-induced linearisation. -/
structure DriverState where
  pendingIrp : Option Irp
deriving Repr, DecidableEq

/-- State after DriverEntry: `g_PendingIrp = NULL`. -/
def initState : DriverState := ⟨none⟩

/-- `RtlCopyMemory(dst, src, n)` on byte lists: the first `n` bytes come
from `src`, the rest of `dst` is untouched. -/
def rtlCopyMemory (dst src : List Nat) (n : Nat) : List Nat :=
  src.take n ++ dst.drop n

/-- The spec's Mailbox publish outcome, read off from which branch of
`ProcessNotifyCallback` ran: `Delivered` when the pending IRP was completed,
`Dropped` when `g_PendingIrp` was NULL. -/
inductive PublishResult
  | Delivered
  | Dropped
deriving Repr, DecidableEq

/-- Driver.c `ProcessNotifyCallback`.  On an exit notification
(`CreateInfo == NULL`) nothing happens.  On a creation notification, if an
IRP is pending its buffer receives the process id, the parent id and — when
the source image name is non-NULL — `min(Length, MAX_PATH_SIZE*2)` bytes of
the name; the IRP is completed with STATUS_SUCCESS and the slot cleared.
Returns the new state, the completions issued, and the publish outcome
(`none` for exit notifications, which never reach the Mailbox). -/
def ProcessNotifyCallback (s : DriverState) (ProcessId : Nat)
    (CreateInfo : Option PS_CREATE_NOTIFY_INFO) :
    DriverState × List Completion × Option PublishResult :=
  match CreateInfo with
  | none => (s, [], none)
  | some ci =>
    match s.pendingIrp with
    | none => (s, [], some PublishResult.Dropped)
    | some irp =>
      let fileBytes : List Nat :=
        match ci.ImageFileName with
        | none => irp.buffer.ImageFileName
        | some u =>
          rtlCopyMemory irp.buffer.ImageFileName u.Buffer
            (min u.Length (MAX_PATH_SIZE * sizeofWCHAR))
      let pInfo : PROCESS_CREATION_INFO :=
        { ProcessId := ProcessId
          ParentProcessId := ci.ParentProcessId
          ImageFileName := fileBytes }
      (⟨none⟩,
       [⟨irp.id, STATUS_SUCCESS, sizeofPROCESS_CREATION_INFO, some pInfo⟩],
       some PublishResult.Delivered)

/-- The device-control requests, one constructor per arm of the switch on
`stack->Parameters.DeviceIoControl.IoControlCode`.  A GET_PROCESS_INFO
request carries its IRP (id and buffer); a SEND_RESPONSE request carries
the USER_RESPONSE in its buffer, which the driver never reads; `other` is
any unrecognised control code. -/
inductive IoRequest
  | getProcessInfo (irp : Irp)
  | sendResponse (irpId : Nat) (resp : USER_RESPONSE)
  | other (irpId : Nat) (code : Nat)
deriving Repr, DecidableEq

/-- Driver.c `CyberionDeviceControl`.  GET_PROCESS_INFO: if an IRP is
already pending the new IRP is completed at once with STATUS_DEVICE_BUSY,
otherwise it is stored and left pending.  SEND_RESPONSE: completed with
STATUS_SUCCESS and zero output, no other effect.  Unknown codes: completed
with STATUS_INVALID_DEVICE_REQUEST.  Returns the new state, the NTSTATUS
returned by the dispatch routine, and the completions issued. -/
def CyberionDeviceControl (s : DriverState) (req : IoRequest) :
    DriverState × Nat × List Completion :=
  match req with
  | IoRequest.getProcessInfo irp =>
    match s.pendingIrp with
    | some _ =>
      (s, STATUS_DEVICE_BUSY,
       [⟨irp.id, STATUS_DEVICE_BUSY, 0, some irp.buffer⟩])
    | none => (⟨some irp⟩, STATUS_PENDING, [])
  | IoRequest.sendResponse irpId _ =>
    (s, STATUS_SUCCESS, [⟨irpId, STATUS_SUCCESS, 0, none⟩])
  | IoRequest.other irpId _ =>
    (s, STATUS_INVALID_DEVICE_REQUEST,
     [⟨irpId, STATUS_INVALID_DEVICE_REQUEST, 0, none⟩])

/-- Driver.c `CyberionUnload`, Mailbox part: if an IRP is pending the
driver calls `IoCancelIrp` on it and then nulls `g_PendingIrp`.
`IoCancelIrp` only sets the IRP's Cancel flag and invokes the driver's
cancel routine if one was registered; this driver never calls
`IoSetCancelRoutine` (the GET_PROCESS_INFO arm only does
`IoMarkIrpPending`), so nothing completes the IRP: no completion is
issued, and dropping the pointer abandons the still-pending request. -/
def CyberionUnload (s : DriverState) : DriverState × List Completion :=
  match s.pendingIrp with
  | none => (s, [])
  | some _ => (⟨none⟩, [])

/-- One serialised step of the driver: a device-control request, a process
notification, or the unload routine. -/
inductive Op
  | ioctl (req : IoRequest)
  | notify (ProcessId : Nat) (CreateInfo : Option PS_CREATE_NOTIFY_INFO)
  | unload
deriving Repr, DecidableEq

/-- State transition of one step (completions and return values dropped). -/
def stepState (s : DriverState) (op : Op) : DriverState :=
  match op with
  | Op.ioctl req => (CyberionDeviceControl s req).1
  | Op.notify pid ci => (ProcessNotifyCallback s pid ci).1
  | Op.unload => (CyberionUnload s).1

/-- Run a sequence of steps from a state. -/
def runFrom (s : DriverState) (ops : List Op) : DriverState :=
  ops.foldl stepState s

/-- Fixed sample buffer used by concrete witnesses: a zeroed
PROCESS_CREATION_INFO whose path field holds its 520 bytes. -/
def wBuf0 : PROCESS_CREATION_INFO := ⟨0, 0, List.replicate 520 0⟩

/-- Fixed short sample image name used by concrete witnesses: the UTF-16
bytes of the string ABC, Length 6. -/
def wU0 : UNICODE_STRING := ⟨6, [65, 0, 66, 0, 67, 0]⟩

/-- Fixed long sample image name used by concrete witnesses: 600 bytes
(300 UTF-16 code units), exceeding the 520-byte field. -/
def wULong : UNICODE_STRING := ⟨600, List.replicate 600 65⟩

/-- Reading back the first `n` bytes after an `n`-byte copy yields the
first `n` bytes of the source, provided the source has that many. -/
theorem rtlCopyMemory_take (dst src : List Nat) (n : Nat) (h : n ≤ src.length) :
    (rtlCopyMemory dst src n).take n = src.take n := by
  rw [rtlCopyMemory]
  have hl : (src.take n).length = n := by
    rw [List.length_take]
    exact min_eq_left h
  exact List.take_left' hl

/-- Bytes of the destination past the copied region are untouched. -/
theorem rtlCopyMemory_drop (dst src : List Nat) (n : Nat) (h : n ≤ src.length) :
    (rtlCopyMemory dst src n).drop n = dst.drop n := by
  rw [rtlCopyMemory]
  have hl : (src.take n).length = n := by
    rw [List.length_take]
    exact min_eq_left h
  exact List.drop_left' hl

/-- C1: when an IRP is pending, a creation notification clears the slot,
completes exactly that IRP, exactly once, with STATUS_SUCCESS and a buffer
holding the published process id, parent id and image path (read back in
full whenever the path fits the field), and the publish outcome is
Delivered. -/
theorem publish_delivers_to_waiter (s : DriverState) (irp : Irp) (pid : Nat)
    (ci : PS_CREATE_NOTIFY_INFO) (h : s.pendingIrp = some irp) :
    ∃ info : PROCESS_CREATION_INFO,
      ProcessNotifyCallback s pid (some ci) =
        (⟨none⟩,
         [⟨irp.id, STATUS_SUCCESS, sizeofPROCESS_CREATION_INFO, some info⟩],
         some PublishResult.Delivered) ∧
      info.ProcessId = pid ∧
      info.ParentProcessId = ci.ParentProcessId ∧
      ∀ u : UNICODE_STRING, ci.ImageFileName = some u →
        u.Buffer.length = u.Length → u.Length ≤ MAX_PATH_SIZE * sizeofWCHAR →
        info.ImageFileName.take u.Length = u.Buffer := by
  obtain ⟨slot⟩ := s
  obtain rfl : slot = some irp := h
  refine ⟨_, rfl, rfl, rfl, ?_⟩
  intro u hu hlen hle
  obtain ⟨ppid, img⟩ := ci
  obtain rfl : img = some u := hu
  show (rtlCopyMemory irp.buffer.ImageFileName u.Buffer
      (min u.Length (MAX_PATH_SIZE * sizeofWCHAR))).take u.Length = u.Buffer
  rw [min_eq_left hle,
    rtlCopyMemory_take irp.buffer.ImageFileName u.Buffer u.Length
      (le_of_eq hlen.symm), ← hlen, List.take_length]

/-- Witness for C1 at a concrete waiter and event. -/
theorem publish_delivers_to_waiter_witness :
    ∃ info : PROCESS_CREATION_INFO,
      ProcessNotifyCallback ⟨some ⟨1, wBuf0⟩⟩ 200 (some ⟨5, some wU0⟩) =
        (⟨none⟩,
         [⟨(⟨1, wBuf0⟩ : Irp).id, STATUS_SUCCESS,
           sizeofPROCESS_CREATION_INFO, some info⟩],
         some PublishResult.Delivered) ∧
      info.ProcessId = 200 ∧
      info.ParentProcessId =
        (⟨5, some wU0⟩ : PS_CREATE_NOTIFY_INFO).ParentProcessId ∧
      ∀ u : UNICODE_STRING,
        (⟨5, some wU0⟩ : PS_CREATE_NOTIFY_INFO).ImageFileName = some u →
        u.Buffer.length = u.Length → u.Length ≤ MAX_PATH_SIZE * sizeofWCHAR →
        info.ImageFileName.take u.Length = u.Buffer :=
  publish_delivers_to_waiter ⟨some ⟨1, wBuf0⟩⟩ ⟨1, wBuf0⟩ 200
    ⟨5, some wU0⟩ rfl

/-- C2: every state reachable from the Empty slot by ioctl, notify and
unload steps has a slot that is Empty or holds exactly one IRP, and a
registerWaiter that finds the slot occupied never replaces the stored
IRP. -/
theorem single_slot_invariant :
    (∀ ops : List Op, (runFrom initState ops).pendingIrp = none ∨
      ∃ irp : Irp, (runFrom initState ops).pendingIrp = some irp) ∧
    (∀ (s : DriverState) (w irp2 : Irp), s.pendingIrp = some w →
      (CyberionDeviceControl s (IoRequest.getProcessInfo irp2)).1.pendingIrp
        = some w) := by
  constructor
  · intro ops
    cases (runFrom initState ops).pendingIrp with
    | none => exact Or.inl rfl
    | some irp => exact Or.inr ⟨irp, rfl⟩
  · intro s w irp2 h
    obtain ⟨slot⟩ := s
    obtain rfl : slot = some w := h
    rfl

/-- Witness for C2: with one IRP stored, a second registerWaiter leaves
that IRP in the slot. -/
theorem single_slot_invariant_witness :
    (CyberionDeviceControl ⟨some ⟨1, wBuf0⟩⟩
        (IoRequest.getProcessInfo ⟨2, wBuf0⟩)).1.pendingIrp
      = some ⟨1, wBuf0⟩ :=
  single_slot_invariant.2 ⟨some ⟨1, wBuf0⟩⟩ ⟨1, wBuf0⟩ ⟨2, wBuf0⟩ rfl

/-- C3: while the slot is Empty, every creation notification takes the
Dropped branch: no IRP is completed, nothing is buffered, and the slot is
still Empty after any sequence of such publishes. -/
theorem publish_no_waiter_dropped (s : DriverState) (h : s.pendingIrp = none)
    (evs : List (Nat × PS_CREATE_NOTIFY_INFO)) :
    runFrom s (evs.map fun e => Op.notify e.1 (some e.2)) = s ∧
    ∀ e ∈ evs, ProcessNotifyCallback s e.1 (some e.2) =
      (s, [], some PublishResult.Dropped) := by
  obtain ⟨slot⟩ := s
  obtain rfl : slot = none := h
  refine ⟨?_, fun e _ => rfl⟩
  induction evs with
  | nil => rfl
  | cons e rest ih =>
    simpa [runFrom, stepState, ProcessNotifyCallback] using ih

/-- Witness for C3 at a concrete publish sequence. -/
theorem publish_no_waiter_dropped_witness :
    runFrom initState
        (([(100, (⟨1, some wU0⟩ : PS_CREATE_NOTIFY_INFO))]).map
          fun e => Op.notify e.1 (some e.2)) = initState ∧
    ∀ e ∈ [(100, (⟨1, some wU0⟩ : PS_CREATE_NOTIFY_INFO))],
      ProcessNotifyCallback initState e.1 (some e.2) =
        (initState, [], some PublishResult.Dropped) :=
  publish_no_waiter_dropped initState rfl [(100, ⟨1, some wU0⟩)]

/-- C4: a second WaitForNextEvent while one IRP is pending is completed at
once with STATUS_DEVICE_BUSY and zero output, and the stored IRP is
unchanged in the slot. -/
theorem second_waiter_busy (s : DriverState) (w irp2 : Irp)
    (h : s.pendingIrp = some w) :
    CyberionDeviceControl s (IoRequest.getProcessInfo irp2) =
      (s, STATUS_DEVICE_BUSY,
       [⟨irp2.id, STATUS_DEVICE_BUSY, 0, some irp2.buffer⟩]) ∧
    (CyberionDeviceControl s (IoRequest.getProcessInfo irp2)).1.pendingIrp
      = some w := by
  obtain ⟨slot⟩ := s
  obtain rfl : slot = some w := h
  exact ⟨rfl, rfl⟩

/-- Witness for C4 at a concrete pair of IRPs. -/
theorem second_waiter_busy_witness :
    CyberionDeviceControl ⟨some ⟨1, wBuf0⟩⟩
        (IoRequest.getProcessInfo ⟨2, wBuf0⟩) =
      (⟨some ⟨1, wBuf0⟩⟩, STATUS_DEVICE_BUSY,
       [⟨(⟨2, wBuf0⟩ : Irp).id, STATUS_DEVICE_BUSY, 0,
         some (⟨2, wBuf0⟩ : Irp).buffer⟩]) ∧
    (CyberionDeviceControl ⟨some ⟨1, wBuf0⟩⟩
        (IoRequest.getProcessInfo ⟨2, wBuf0⟩)).1.pendingIrp
      = some ⟨1, wBuf0⟩ :=
  second_waiter_busy ⟨some ⟨1, wBuf0⟩⟩ ⟨1, wBuf0⟩ ⟨2, wBuf0⟩ rfl

/-- C5 counterexample: a SEND_RESPONSE whose record is malformed (process
id 0, verdict 2 which is neither UserResponseAllow nor UserResponseBlock)
is nevertheless completed with STATUS_SUCCESS — a success status, severity
bit clear — not with any failure.  The dispatcher performs no validation. -/
theorem sendResponse_malformed_success :
    (UserResponseAllow ≠ 2 ∧ UserResponseBlock ≠ 2) ∧
    CyberionDeviceControl initState (IoRequest.sendResponse 7 ⟨0, 2⟩) =
      (initState, STATUS_SUCCESS, [⟨7, STATUS_SUCCESS, 0, none⟩]) ∧
    STATUS_SUCCESS < 0x80000000 := by
  decide

/-- C5 amended: SubmitDecision performs no validation of the decision
record; every SEND_RESPONSE request, well-formed or not, is completed with
STATUS_SUCCESS and zero output. -/
theorem sendResponse_no_validation (s : DriverState) (irpId : Nat)
    (resp : USER_RESPONSE) :
    CyberionDeviceControl s (IoRequest.sendResponse irpId resp) =
      (s, STATUS_SUCCESS, [⟨irpId, STATUS_SUCCESS, 0, none⟩]) := rfl

/-- C6, failing input: unload-time cancel is indeed a no-op on an empty
slot, but on a pending slot it issues no completion at all — in
particular none with STATUS_CANCELLED — so the waiter is never resumed
with a Cancelled result; the slot is cleared and the request abandoned.
This contradicts the claimed (and spec-intended) cancellation behaviour:
the driver registers no cancel routine, so its `IoCancelIrp` call cannot
complete the IRP. -/
theorem unload_never_resumes_waiter :
    CyberionUnload ⟨none⟩ = (⟨none⟩, []) ∧
    CyberionUnload ⟨some ⟨1, wBuf0⟩⟩ = (⟨none⟩, []) ∧
    ¬ ∃ c ∈ (CyberionUnload ⟨some ⟨1, wBuf0⟩⟩).2,
        c.status = STATUS_CANCELLED := by
  refine ⟨rfl, rfl, ?_⟩
  rintro ⟨c, hc, -⟩
  simp [CyberionUnload] at hc

/-- C8: an exit notification (CreateInfo NULL) leaves the driver state —
including any pending IRP and its buffer — unchanged and completes
nothing. -/
theorem exit_notification_no_effect (s : DriverState) (pid : Nat) :
    ProcessNotifyCallback s pid none = (s, [], none) := rfl

/-- C9: SEND_RESPONSE completes with STATUS_SUCCESS and zero output and
leaves the slot untouched, whatever the decision record holds. -/
theorem sendResponse_frame (s : DriverState) (irpId : Nat)
    (resp : USER_RESPONSE) :
    (CyberionDeviceControl s (IoRequest.sendResponse irpId resp)).2.2 =
      [⟨irpId, STATUS_SUCCESS, 0, none⟩] ∧
    (CyberionDeviceControl s (IoRequest.sendResponse irpId resp)).2.1 =
      STATUS_SUCCESS ∧
    (CyberionDeviceControl s (IoRequest.sendResponse irpId resp)).1 = s :=
  ⟨rfl, rfl, rfl⟩

/-- C7: when the source image name exceeds the 520-byte (260 UTF-16 code
unit) field, the delivered buffer holds exactly the first 520 bytes of the
source followed by the untouched tail of the destination, and the
truncated prefix is the same for any second delivery of the same input. -/
theorem path_truncated_deterministic (s : DriverState) (irp : Irp)
    (pid : Nat) (ci : PS_CREATE_NOTIFY_INFO) (u : UNICODE_STRING)
    (h : s.pendingIrp = some irp) (hu : ci.ImageFileName = some u)
    (hwf : u.Buffer.length = u.Length)
    (hover : MAX_PATH_SIZE * sizeofWCHAR < u.Length) :
    ∃ info : PROCESS_CREATION_INFO,
      (ProcessNotifyCallback s pid (some ci)).2.1 =
        [⟨irp.id, STATUS_SUCCESS, sizeofPROCESS_CREATION_INFO, some info⟩] ∧
      info.ImageFileName =
        u.Buffer.take (MAX_PATH_SIZE * sizeofWCHAR) ++
          irp.buffer.ImageFileName.drop (MAX_PATH_SIZE * sizeofWCHAR) ∧
      info.ImageFileName.take (MAX_PATH_SIZE * sizeofWCHAR) =
        u.Buffer.take (MAX_PATH_SIZE * sizeofWCHAR) ∧
      ∀ (s2 : DriverState) (irp2 : Irp), s2.pendingIrp = some irp2 →
        ∃ info2 : PROCESS_CREATION_INFO,
          (ProcessNotifyCallback s2 pid (some ci)).2.1 =
            [⟨irp2.id, STATUS_SUCCESS, sizeofPROCESS_CREATION_INFO,
              some info2⟩] ∧
          info2.ImageFileName.take (MAX_PATH_SIZE * sizeofWCHAR) =
            info.ImageFileName.take (MAX_PATH_SIZE * sizeofWCHAR) := by
  obtain ⟨slot⟩ := s
  obtain rfl : slot = some irp := h
  obtain ⟨ppid, img⟩ := ci
  obtain rfl : img = some u := hu
  have hmin : min u.Length (MAX_PATH_SIZE * sizeofWCHAR)
      = MAX_PATH_SIZE * sizeofWCHAR := min_eq_right (le_of_lt hover)
  have h520 : MAX_PATH_SIZE * sizeofWCHAR ≤ u.Buffer.length := by
    rw [hwf]
    exact le_of_lt hover
  refine ⟨_, rfl, ?_, ?_, ?_⟩
  · show rtlCopyMemory irp.buffer.ImageFileName u.Buffer
        (min u.Length (MAX_PATH_SIZE * sizeofWCHAR)) =
      u.Buffer.take (MAX_PATH_SIZE * sizeofWCHAR) ++
        irp.buffer.ImageFileName.drop (MAX_PATH_SIZE * sizeofWCHAR)
    rw [hmin, rtlCopyMemory]
  · show (rtlCopyMemory irp.buffer.ImageFileName u.Buffer
        (min u.Length (MAX_PATH_SIZE * sizeofWCHAR))).take
          (MAX_PATH_SIZE * sizeofWCHAR) =
      u.Buffer.take (MAX_PATH_SIZE * sizeofWCHAR)
    rw [hmin, rtlCopyMemory_take irp.buffer.ImageFileName u.Buffer
      (MAX_PATH_SIZE * sizeofWCHAR) h520]
  · intro s2 irp2 h2
    obtain ⟨slot2⟩ := s2
    obtain rfl : slot2 = some irp2 := h2
    refine ⟨_, rfl, ?_⟩
    show (rtlCopyMemory irp2.buffer.ImageFileName u.Buffer
        (min u.Length (MAX_PATH_SIZE * sizeofWCHAR))).take
          (MAX_PATH_SIZE * sizeofWCHAR) =
      (rtlCopyMemory irp.buffer.ImageFileName u.Buffer
        (min u.Length (MAX_PATH_SIZE * sizeofWCHAR))).take
          (MAX_PATH_SIZE * sizeofWCHAR)
    rw [hmin,
      rtlCopyMemory_take irp2.buffer.ImageFileName u.Buffer
        (MAX_PATH_SIZE * sizeofWCHAR) h520,
      rtlCopyMemory_take irp.buffer.ImageFileName u.Buffer
        (MAX_PATH_SIZE * sizeofWCHAR) h520]

set_option maxRecDepth 4000 in
/-- Witness for C7 at a concrete 600-byte (300 code unit) image name. -/
theorem path_truncated_deterministic_witness :
    ∃ info : PROCESS_CREATION_INFO,
      (ProcessNotifyCallback ⟨some ⟨1, wBuf0⟩⟩ 300
          (some ⟨5, some wULong⟩)).2.1 =
        [⟨(⟨1, wBuf0⟩ : Irp).id, STATUS_SUCCESS,
          sizeofPROCESS_CREATION_INFO, some info⟩] ∧
      info.ImageFileName =
        wULong.Buffer.take (MAX_PATH_SIZE * sizeofWCHAR) ++
          (⟨1, wBuf0⟩ : Irp).buffer.ImageFileName.drop
            (MAX_PATH_SIZE * sizeofWCHAR) ∧
      info.ImageFileName.take (MAX_PATH_SIZE * sizeofWCHAR) =
        wULong.Buffer.take (MAX_PATH_SIZE * sizeofWCHAR) ∧
      ∀ (s2 : DriverState) (irp2 : Irp), s2.pendingIrp = some irp2 →
        ∃ info2 : PROCESS_CREATION_INFO,
          (ProcessNotifyCallback s2 300 (some ⟨5, some wULong⟩)).2.1 =
            [⟨irp2.id, STATUS_SUCCESS, sizeofPROCESS_CREATION_INFO,
              some info2⟩] ∧
          info2.ImageFileName.take (MAX_PATH_SIZE * sizeofWCHAR) =
            info.ImageFileName.take (MAX_PATH_SIZE * sizeofWCHAR) :=
  path_truncated_deterministic ⟨some ⟨1, wBuf0⟩⟩ ⟨1, wBuf0⟩ 300
    ⟨5, some wULong⟩ wULong rfl rfl (by simp [wULong]) (by decide)

/-- C10: delivery writes the process id, the parent id, and exactly the
first min(Length, 520) bytes of the image name; the remaining bytes of the
520-byte path field keep their previous contents (no terminator, no
padding), and with a NULL image name the path field is not written at
all. -/
theorem publish_writes_only_prefix (s : DriverState) (irp : Irp) (pid : Nat)
    (ci : PS_CREATE_NOTIFY_INFO) (h : s.pendingIrp = some irp) :
    ∃ info : PROCESS_CREATION_INFO,
      (ProcessNotifyCallback s pid (some ci)).2.1 =
        [⟨irp.id, STATUS_SUCCESS, sizeofPROCESS_CREATION_INFO, some info⟩] ∧
      info.ProcessId = pid ∧
      info.ParentProcessId = ci.ParentProcessId ∧
      (∀ u : UNICODE_STRING, ci.ImageFileName = some u →
        info.ImageFileName =
          u.Buffer.take (min u.Length (MAX_PATH_SIZE * sizeofWCHAR)) ++
            irp.buffer.ImageFileName.drop
              (min u.Length (MAX_PATH_SIZE * sizeofWCHAR))) ∧
      (ci.ImageFileName = none →
        info.ImageFileName = irp.buffer.ImageFileName) := by
  obtain ⟨slot⟩ := s
  obtain rfl : slot = some irp := h
  refine ⟨_, rfl, rfl, rfl, ?_, ?_⟩
  · intro u hu
    obtain ⟨ppid, img⟩ := ci
    obtain rfl : img = some u := hu
    rfl
  · intro hnone
    obtain ⟨ppid, img⟩ := ci
    obtain rfl : img = none := hnone
    rfl

/-- Witness for C10 at a concrete waiter and short image name. -/
theorem publish_writes_only_prefix_witness :
    ∃ info : PROCESS_CREATION_INFO,
      (ProcessNotifyCallback ⟨some ⟨3, wBuf0⟩⟩ 400
          (some ⟨9, some wU0⟩)).2.1 =
        [⟨(⟨3, wBuf0⟩ : Irp).id, STATUS_SUCCESS,
          sizeofPROCESS_CREATION_INFO, some info⟩] ∧
      info.ProcessId = 400 ∧
      info.ParentProcessId =
        (⟨9, some wU0⟩ : PS_CREATE_NOTIFY_INFO).ParentProcessId ∧
      (∀ u : UNICODE_STRING,
        (⟨9, some wU0⟩ : PS_CREATE_NOTIFY_INFO).ImageFileName = some u →
        info.ImageFileName =
          u.Buffer.take (min u.Length (MAX_PATH_SIZE * sizeofWCHAR)) ++
            (⟨3, wBuf0⟩ : Irp).buffer.ImageFileName.drop
              (min u.Length (MAX_PATH_SIZE * sizeofWCHAR))) ∧
      ((⟨9, some wU0⟩ : PS_CREATE_NOTIFY_INFO).ImageFileName = none →
        info.ImageFileName = (⟨3, wBuf0⟩ : Irp).buffer.ImageFileName) :=
  publish_writes_only_prefix ⟨some ⟨3, wBuf0⟩⟩ ⟨3, wBuf0⟩ 400
    ⟨9, some wU0⟩ rfl

end Cyberion
